import Mathlib

/-!
# anticaptcha: a shallow embedding of `anticaptcha.go`

The client builds a JSON request, posts it, decodes the answer into a
`map[string]interface{}`, and polls `getTaskResult` until the status is no
longer the string "processing".

Effects are made explicit by state passing over a `World`:

* the network is an oracle, a stream of answers to the successive `http.Post`
  calls of the run (an answer is a transport error or the decoded body);
* every `http.Post`, every `time.Sleep` and every call of the logging callback
  is appended to a trace.

The `for` loop of the two solve methods has no bound in the source, so its
embedding takes a fuel argument that counts loop iterations and returns `none`
when the fuel runs out.  A Go panic is an explicit outcome.  `json.Marshal`
fails on a `float64` that is NaN or infinite, so `getTaskResult` sends no
request for such a task id.
-/

namespace Anticaptcha

/-! ## Go values -/

/-- A `float64`, kept by its IEEE-754 bit pattern: bit 63 is the sign, bits 62
to 52 the exponent, bits 51 to 0 the fraction. NaN and the two infinities are
among the values. The client never computes with a `float64`; it hands the task
id it was given back to the service. -/
structure Float64 where
  bits : Nat
  deriving DecidableEq, Repr

/-- The zero value of `float64`, the `0` of `return 0, err`. -/
def Float64.zero : Float64 := ⟨0⟩

/-- The text `strconv.FormatFloat` gives for a value that is not finite (the
exponent bits are all ones): "NaN" with a nonzero fraction, otherwise "-Inf" or
"+Inf" by the sign. `none` for a finite value. -/
def Float64.special (f : Float64) : Option String :=
  if (f.bits / 4503599627370496) % 2048 = 2047 then
    if f.bits % 4503599627370496 ≠ 0 then some "NaN"
    else if (f.bits / 9223372036854775808) % 2 = 1 then some "-Inf"
    else some "+Inf"
  else none

/-- The test `!math.IsInf(f, 0) && !math.IsNaN(f)`. -/
def Float64.isFinite (f : Float64) : Bool :=
  f.special.isNone

/-- The dynamic values an `interface{}` holds in this program: the kinds of
value `encoding/json` stores when it decodes into `map[string]interface{}`,
which are also the kinds the client puts into its request maps. -/
inductive Value where
  | null
  | bool (b : Bool)
  | num (f : Float64)
  | str (s : String)
  | arr (xs : List Value)
  | obj (fields : List (String × Value))

/-- A `map[string]interface{}`, as an association list read through
`GoMap.index`. The nil map and the empty map are both `[]`; the program only
reads from decoded maps, and reading treats the two alike. -/
abbrev GoMap := List (String × Value)

/-- Map indexing `m[key]`: the stored value, or the nil interface when the key
is absent. -/
def GoMap.index (m : GoMap) (key : String) : Value :=
  (List.lookup key m).getD Value.null

/-- The dynamic types of the values above. -/
inductive GoType where
  | nil
  | bool
  | float64
  | string
  | slice
  | map
  deriving DecidableEq, Repr

/-- Dynamic type of an interface value. -/
def Value.goType : Value → GoType
  | .null => .nil
  | .bool _ => .bool
  | .num _ => .float64
  | .str _ => .string
  | .arr _ => .slice
  | .obj _ => .map

/-- The comma-ok assertion `v.(string)`. -/
def Value.assertString : Value → Option String
  | .str s => some s
  | _ => none

/-- The comma-ok assertion `v.(float64)`. -/
def Value.assertFloat64 : Value → Option Float64
  | .num f => some f
  | _ => none

/-- The assertion `v.(map[string]interface{})`, `none` where it does not hold. -/
def Value.assertMap : Value → Option GoMap
  | .obj m => some m
  | _ => none

/-- The comparison `v == "lit"` of an interface value with a string constant:
true exactly when the dynamic type is `string` and the strings are equal. A
value of another dynamic type compares unequal, without a panic. -/
def Value.eqString : Value → String → Bool
  | .str s, lit => s == lit
  | _, _ => false

/-- The panic value of a failed single-value type assertion
(`*runtime.TypeAssertionError`): the dynamic type found and the type asserted. -/
structure TypeAssertionError where
  concrete : GoType
  asserted : GoType
  deriving DecidableEq, Repr

/-- Go `error` values of this program. -/
inductive GoError where
  /-- The value of `errors.New(text)`. -/
  | errorsNew (text : String)
  /-- An error returned by `http.Post`. -/
  | transport (text : String)
  /-- The `*json.UnsupportedValueError` that `json.Marshal` returns for a
  `float64` that is not finite: the value and its text. -/
  | unsupportedValue (value : Float64) (str : String)
  deriving DecidableEq, Repr

/-- The method `Error()`: the message of an error. -/
def GoError.Error : GoError → String
  | .errorsNew text => text
  | .transport text => text
  | .unsupportedValue _ str => "json: unsupported value: " ++ str

/-- How a call ends: it returns its results, or it panics. -/
inductive Outcome (α : Type) where
  | returned (results : α)
  | panicked (p : TypeAssertionError)
  deriving DecidableEq, Repr

/-! ## The world: network, clock and logging sink -/

/-- A `*http.Response` as far as the client reads it: `Body` is the map that
`json.NewDecoder(resp.Body).Decode(&responseBody)` leaves in `responseBody`
(the error of `Decode` is dropped by the source, so a body that is not a JSON
object is one that leaves the map empty). -/
structure Response where
  Body : GoMap

/-- Observable effects, in program order. -/
inductive Event where
  | httpPost (url contentType : String) (body : Value)
  | sleep (d : Int)
  | logCall (params : List Value)

/-- The state threaded through the client. `network k` is the answer to the
`k`-th `http.Post` still to come; `trace` is what has happened so far. -/
structure World where
  network : Nat → Except GoError Response
  trace : List Event

/-- Append an event to the trace. -/
def World.emit (w : World) (e : Event) : World :=
  { w with trace := w.trace ++ [e] }

/-- The call `http.Post(url, contentType, body)`: recorded in the trace, answered
by the next answer of the network. -/
def httpPost (url contentType : String) (body : Value) (w : World) :
    Except GoError Response × World :=
  (w.network 0,
    { network := fun k => w.network (k + 1),
      trace := w.trace ++ [Event.httpPost url contentType body] })

/-- The call `time.Sleep(d)`. -/
def timeSleep (d : Int) (w : World) : World :=
  w.emit (Event.sleep d)

mutual
/-- The first `float64` in a value that `json.Marshal` does not support, with
its text: a NaN or an infinity. Strings, booleans and nil are always
supported. Lists and maps are searched in the order of the embedding; Go visits
the keys of a map in sorted order, which gives the same answer whenever a map
holds at most one number, as every request map of the client does. -/
def Value.unsupported : Value → Option (Float64 × String)
  | .num f => f.special.map (fun str => (f, str))
  | .arr xs => unsupportedIn xs
  | .obj fields => unsupportedAmong fields
  | _ => none
/-- The search of `Value.unsupported` through the elements of a slice. -/
def unsupportedIn : List Value → Option (Float64 × String)
  | [] => none
  | x :: xs => (x.unsupported).orElse (fun _ => unsupportedIn xs)
/-- The search of `Value.unsupported` through the values of a map. -/
def unsupportedAmong : List (String × Value) → Option (Float64 × String)
  | [] => none
  | (_, v) :: rest => (v.unsupported).orElse (fun _ => unsupportedAmong rest)
end

/-- The call `json.Marshal(v)`. It fails with a `*json.UnsupportedValueError`
when the value holds a `float64` that is NaN or infinite; otherwise the request
is kept as the JSON document it denotes. -/
def jsonMarshal (v : Value) : Except GoError Value :=
  match v.unsupported with
  | some (f, str) => Except.error (GoError.unsupportedValue f str)
  | none => Except.ok v

/-- The method `json.NewDecoder(resp.Body).Decode(&responseBody)` on a fresh
map. -/
def Response.decode (resp : Response) : GoMap :=
  resp.Body

/-! ## URLs -/

/-- The fields of `url.URL` the program sets. -/
structure URL where
  Scheme : String := ""
  Host : String := ""
  Path : String := ""

/-- The package variable `baseURL`. -/
def baseURL : URL := { Host := "api.anti-captcha.com", Scheme := "https", Path := "/" }

/-- The method `ResolveReference` for the references the client builds: no
scheme, no host, and an absolute path without dot segments. RFC 3986 section
5.2.2 then keeps scheme and authority of the base and takes the path of the
reference. -/
def URL.ResolveReference (base ref : URL) : URL :=
  { Scheme := base.Scheme, Host := base.Host, Path := ref.Path }

/-- The method `String()` of a URL with scheme, host and path. -/
def URL.String (u : URL) : String :=
  u.Scheme ++ "://" ++ u.Host ++ u.Path

/-! ## The client -/

/-- The field `LogFunction` is a Go function value. The client only tests it
against nil and calls it; a callback is taken to return normally and to leave
the client as it is, and each call is recorded in the trace with its
parameters. -/
inductive LogFunction where
  | callback
  deriving DecidableEq, Repr

/-- The struct `Client`. `SendInterval` is a `time.Duration`, a count of
nanoseconds; `LogFunction` is `none` for a nil function. -/
structure Client where
  APIKey : String
  SendInterval : Int
  LogFunction : Option LogFunction

/-- The method `log`: call the callback when there is one. -/
def Client.log (c : Client) (params : List Value) (w : World) : World :=
  match c.LogFunction with
  | some _ => w.emit (Event.logCall params)
  | none => w

/-- The method `createTaskRecaptcha`, returning `(float64, error)`. -/
def Client.createTaskRecaptcha (c : Client) (websiteURL recaptchaKey : String) (w : World) :
    (Float64 × Option GoError) × World :=
  let body := Value.obj [
    ("clientKey", Value.str c.APIKey),
    ("task", Value.obj [
      ("type", Value.str "NoCaptchaTaskProxyless"),
      ("websiteURL", Value.str websiteURL),
      ("websiteKey", Value.str recaptchaKey)])]
  match jsonMarshal body with
  | .error err => ((Float64.zero, some err), w)
  | .ok b =>
    let u := baseURL.ResolveReference { Path := "/createTask" }
    match httpPost u.String "application/json" b w with
    | (.error err, w1) => ((Float64.zero, some err), w1)
    | (.ok resp, w1) =>
      let responseBody := resp.decode
      match (responseBody.index "errorCode").assertString with
      | some errorCode => ((Float64.zero, some (GoError.errorsNew errorCode)), w1)
      | none =>
        match (responseBody.index "taskId").assertFloat64 with
        | some taskId => ((taskId, none), w1)
        | none => ((Float64.zero, some (GoError.errorsNew "task id is empty")), w1)

/-- The method `createTaskImage`, returning `(float64, error)`. -/
def Client.createTaskImage (c : Client) (imgString : String) (w : World) :
    (Float64 × Option GoError) × World :=
  let body := Value.obj [
    ("clientKey", Value.str c.APIKey),
    ("task", Value.obj [
      ("type", Value.str "ImageToTextTask"),
      ("body", Value.str imgString)])]
  match jsonMarshal body with
  | .error err => ((Float64.zero, some err), w)
  | .ok b =>
    let u := baseURL.ResolveReference { Path := "/createTask" }
    match httpPost u.String "application/json" b w with
    | (.error err, w1) => ((Float64.zero, some err), w1)
    | (.ok resp, w1) =>
      let responseBody := resp.decode
      match (responseBody.index "errorCode").assertString with
      | some errorCode => ((Float64.zero, some (GoError.errorsNew errorCode)), w1)
      | none =>
        match (responseBody.index "taskId").assertFloat64 with
        | some taskId => ((taskId, none), w1)
        | none => ((Float64.zero, some (GoError.errorsNew "task id is empty")), w1)

/-- The method `getTaskResult`, returning `(map[string]interface{}, error)`; the
nil map of the error returns is `[]`. -/
def Client.getTaskResult (c : Client) (taskID : Float64) (w : World) :
    (GoMap × Option GoError) × World :=
  let body := Value.obj [
    ("clientKey", Value.str c.APIKey),
    ("taskId", Value.num taskID)]
  match jsonMarshal body with
  | .error err => (([], some err), w)
  | .ok b =>
    let u := baseURL.ResolveReference { Path := "/getTaskResult" }
    match httpPost u.String "application/json" b w with
    | (.error err, w1) => (([], some err), w1)
    | (.ok resp, w1) =>
      let responseBody := resp.decode
      ((responseBody, none), w1)

/-- The `for` loop of `SendRecaptcha` and of `SendImage` (the two loops are the
same text). It is entered with the current `response`; it ends with
`Sum.inl err` at the `return "", err` inside the loop and with
`Sum.inr response` at the `break`. One unit of fuel is one iteration; `none`
means the fuel ran out. -/
def Client.pollLoop (c : Client) (taskID : Float64) :
    Nat → GoMap → World → Option ((GoError ⊕ GoMap) × World)
  | 0, _, _ => none
  | fuel + 1, response, w =>
    if (response.index "status").eqString "processing" then
      let w1 := c.log [Value.str "Result is not ready, waiting a few seconds to check again..."] w
      let w2 := timeSleep c.SendInterval w1
      match c.getTaskResult taskID w2 with
      | ((_, some err), w3) => some (Sum.inl err, w3)
      | ((response, none), w3) => c.pollLoop taskID fuel response w3
    else
      let w1 := c.log [Value.str "Result is ready."] w
      some (Sum.inr response, w1)

/-- The expression `response["solution"].(map[string]interface{})[field].(string)`:
two single-value type assertions, each of which panics when it fails. -/
def extractSolution (response : GoMap) (field : String) : Outcome String :=
  let solution := response.index "solution"
  match solution.assertMap with
  | none => Outcome.panicked ⟨solution.goType, GoType.map⟩
  | some m =>
    let v := m.index field
    match v.assertString with
    | none => Outcome.panicked ⟨v.goType, GoType.string⟩
    | some s => Outcome.returned s

/-- The method `SendRecaptcha`, returning `(string, error)`. -/
def Client.SendRecaptcha (c : Client) (websiteURL recaptchaKey : String) (fuel : Nat)
    (w : World) : Option (Outcome (String × Option GoError) × World) :=
  match c.createTaskRecaptcha websiteURL recaptchaKey w with
  | ((_, some err), w1) => some (Outcome.returned ("", some err), w1)
  | ((taskID, none), w1) =>
    match c.getTaskResult taskID w1 with
    | ((_, some err), w2) => some (Outcome.returned ("", some err), w2)
    | ((response, none), w2) =>
      match c.pollLoop taskID fuel response w2 with
      | none => none
      | some (Sum.inl err, w3) => some (Outcome.returned ("", some err), w3)
      | some (Sum.inr response, w3) =>
        match extractSolution response "gRecaptchaResponse" with
        | Outcome.panicked p => some (Outcome.panicked p, w3)
        | Outcome.returned s => some (Outcome.returned (s, none), w3)

/-- The method `SendImage`, returning `(string, error)`. -/
def Client.SendImage (c : Client) (imgString : String) (fuel : Nat)
    (w : World) : Option (Outcome (String × Option GoError) × World) :=
  match c.createTaskImage imgString w with
  | ((_, some err), w1) => some (Outcome.returned ("", some err), w1)
  | ((taskID, none), w1) =>
    match c.getTaskResult taskID w1 with
    | ((_, some err), w2) => some (Outcome.returned ("", some err), w2)
    | ((response, none), w2) =>
      match c.pollLoop taskID fuel response w2 with
      | none => none
      | some (Sum.inl err, w3) => some (Outcome.returned ("", some err), w3)
      | some (Sum.inr response, w3) =>
        match extractSolution response "text" with
        | Outcome.panicked p => some (Outcome.panicked p, w3)
        | Outcome.returned s => some (Outcome.returned (s, none), w3)

/-! ## Reading a run -/

/-- The loop test `response["status"] == "processing"`. -/
def isProcessing (response : GoMap) : Bool :=
  (response.index "status").eqString "processing"

/-- An answer of the network that is a decoded response with status
"processing". -/
def answersProcessing (a : Except GoError Response) : Bool :=
  match a with
  | .ok resp => isProcessing resp.decode
  | .error _ => false

/-- The decoded body of an answer, `[]` for a transport error. -/
def decodedBody (a : Except GoError Response) : GoMap :=
  match a with
  | .ok resp => resp.decode
  | .error _ => []

/-- The `http.Post` calls of a trace, in order: url and body. -/
def posts : List Event → List (String × Value)
  | [] => []
  | Event.httpPost url _ body :: es => (url, body) :: posts es
  | _ :: es => posts es

/-- The calls of the logging callback in a trace, in order: the parameters. -/
def logCalls : List Event → List (List Value)
  | [] => []
  | Event.logCall params :: es => params :: logCalls es
  | _ :: es => logCalls es

/-- The message logged while the task is still processing. -/
def notReadyMessage : List Value :=
  [Value.str "Result is not ready, waiting a few seconds to check again..."]

/-- The message logged when the loop ends. -/
def readyMessage : List Value :=
  [Value.str "Result is ready."]

/-- The request of `createTaskRecaptcha`: url and body. -/
def recaptchaRequest (c : Client) (websiteURL recaptchaKey : String) : String × Value :=
  ("https://api.anti-captcha.com/createTask",
    Value.obj [
      ("clientKey", Value.str c.APIKey),
      ("task", Value.obj [
        ("type", Value.str "NoCaptchaTaskProxyless"),
        ("websiteURL", Value.str websiteURL),
        ("websiteKey", Value.str recaptchaKey)])])

/-- The request of `createTaskImage`: url and body. -/
def imageRequest (c : Client) (imgString : String) : String × Value :=
  ("https://api.anti-captcha.com/createTask",
    Value.obj [
      ("clientKey", Value.str c.APIKey),
      ("task", Value.obj [
        ("type", Value.str "ImageToTextTask"),
        ("body", Value.str imgString)])])

/-- The request of `getTaskResult`: url and body. -/
def resultRequest (c : Client) (taskID : Float64) : String × Value :=
  ("https://api.anti-captcha.com/getTaskResult",
    Value.obj [("clientKey", Value.str c.APIKey), ("taskId", Value.num taskID)])

/-- The event of posting a request as JSON. -/
def postEvent (r : String × Value) : Event :=
  Event.httpPost r.1 "application/json" r.2

/-- What one call of `log` adds to the trace. -/
def logEvents (c : Client) (params : List Value) : List Event :=
  match c.LogFunction with
  | some _ => [Event.logCall params]
  | none => []

/-- What one processing response adds to the trace: a log call, a sleep and
the next poll. -/
def stepTrace (c : Client) (taskID : Float64) : List Event :=
  logEvents c notReadyMessage
    ++ [Event.sleep c.SendInterval, postEvent (resultRequest c taskID)]

/-- The trace of `n` processing responses. -/
def retryTrace (c : Client) (taskID : Float64) : Nat → List Event
  | 0 => []
  | n + 1 => stepTrace c taskID ++ retryTrace c taskID n

/-- The trace of the loop when it sees `n` processing responses and then a
terminal one: the retries and the final log call. -/
def pollTrace (c : Client) (taskID : Float64) (n : Nat) : List Event :=
  retryTrace c taskID n ++ logEvents c readyMessage

/-- The results of a solve method after its loop has ended with `response`. -/
def solveResult (r : Outcome String) : Outcome (String × Option GoError) :=
  match r with
  | Outcome.panicked p => Outcome.panicked p
  | Outcome.returned s => Outcome.returned (s, none)

/-- The part of `SendRecaptcha` and `SendImage` after the call of their
createTask method, whose results are `created`; `field` is the field read from
the solution. -/
def solveAfter (c : Client) (field : String) (fuel : Nat)
    (created : (Float64 × Option GoError) × World) :
    Option (Outcome (String × Option GoError) × World) :=
  match created with
  | ((_, some err), w1) => some (Outcome.returned ("", some err), w1)
  | ((taskID, none), w1) =>
    match c.getTaskResult taskID w1 with
    | ((_, some err), w2) => some (Outcome.returned ("", some err), w2)
    | ((response, none), w2) =>
      match c.pollLoop taskID fuel response w2 with
      | none => none
      | some (Sum.inl err, w3) => some (Outcome.returned ("", some err), w3)
      | some (Sum.inr response, w3) =>
        match extractSolution response field with
        | Outcome.panicked p => some (Outcome.panicked p, w3)
        | Outcome.returned s => some (Outcome.returned (s, none), w3)

/-- The world after `n` more `http.Post` calls that added `tr` to the trace. -/
def World.after (w : World) (n : Nat) (tr : List Event) : World :=
  { network := fun k => w.network (k + n), trace := w.trace ++ tr }

/-! ## Sample runs -/

/-- A client with a logging callback and a poll interval of five seconds. -/
def sampleClient : Client :=
  { APIKey := "0123456789abcdef", SendInterval := 5000000000,
    LogFunction := some LogFunction.callback }

/-- The `float64` 7, a task id. -/
def sampleTaskID : Float64 := ⟨4619567317775286272⟩

/-- The `float64` +Inf: exponent bits all ones, fraction zero, sign zero. -/
def positiveInfinity : Float64 := ⟨9218868437227405312⟩

/-- A createTask response with a task id. -/
def taskCreated : Except GoError Response :=
  .ok ⟨[("errorId", Value.num ⟨0⟩), ("taskId", Value.num sampleTaskID)]⟩

/-- A createTask response whose task id is +Inf. -/
def taskCreatedInfinite : Except GoError Response :=
  .ok ⟨[("errorId", Value.num ⟨0⟩), ("taskId", Value.num positiveInfinity)]⟩

/-- A getTaskResult response of a task still in progress. -/
def stillProcessing : Except GoError Response :=
  .ok ⟨[("errorId", Value.num ⟨0⟩), ("status", Value.str "processing")]⟩

/-- A world with an empty trace whose network answers `first`, then `n` times
`stillProcessing`, then `last` from there on. -/
def sampleWorld (first : Except GoError Response) (n : Nat)
    (last : Except GoError Response) : World :=
  { network := fun k => if k = 0 then first else if k ≤ n then stillProcessing else last,
    trace := [] }

/-- A ready response of a reCAPTCHA task. -/
def recaptchaReady (s : String) : GoMap :=
  [("status", Value.str "ready"), ("solution", Value.obj [("gRecaptchaResponse", Value.str s)])]

/-- A ready response of an image task. -/
def imageReady (s : String) : GoMap :=
  [("status", Value.str "ready"), ("solution", Value.obj [("text", Value.str s)])]

/-- A terminal response that reports a failure and has no solution. -/
def taskFailed : GoMap :=
  [("errorId", Value.num ⟨0⟩), ("status", Value.str "failed")]

/-! ## Lemmas on the building blocks -/

theorem eqString_iff (v : Value) (lit : String) :
    v.eqString lit = true ↔ v = Value.str lit := by
  cases v <;> simp [Value.eqString]

theorem isProcessing_iff (m : GoMap) :
    isProcessing m = true ↔ m.index "status" = Value.str "processing" := by
  simp [isProcessing, eqString_iff]

theorem answersProcessing_iff (a : Except GoError Response) :
    answersProcessing a = true ↔
      ∃ m, a = .ok ⟨m⟩ ∧ m.index "status" = Value.str "processing" := by
  cases a with
  | error e => simp [answersProcessing]
  | ok r =>
    cases r with
    | mk m => simp [answersProcessing, Response.decode, isProcessing_iff]

theorem answersProcessing_ok {a : Except GoError Response}
    (h : answersProcessing a = true) : a = .ok ⟨decodedBody a⟩ := by
  cases a with
  | error e => simp [answersProcessing] at h
  | ok r => rfl

theorem log_eq (c : Client) (params : List Value) (w : World) :
    c.log params w = w.after 0 (logEvents c params) := by
  unfold Client.log logEvents World.after World.emit
  cases c.LogFunction <;> simp

theorem after_after (w : World) (n m : Nat) (s t : List Event) :
    (w.after n s).after m t = w.after (n + m) (s ++ t) := by
  simp only [World.after, List.append_assoc, World.mk.injEq, and_true]
  funext k
  rw [Nat.add_comm n m, Nat.add_assoc]

theorem jsonMarshal_recaptcha (key websiteURL recaptchaKey : String) :
    jsonMarshal (Value.obj [
        ("clientKey", Value.str key),
        ("task", Value.obj [
          ("type", Value.str "NoCaptchaTaskProxyless"),
          ("websiteURL", Value.str websiteURL),
          ("websiteKey", Value.str recaptchaKey)])])
      = Except.ok (Value.obj [
        ("clientKey", Value.str key),
        ("task", Value.obj [
          ("type", Value.str "NoCaptchaTaskProxyless"),
          ("websiteURL", Value.str websiteURL),
          ("websiteKey", Value.str recaptchaKey)])]) := by
  rfl

theorem jsonMarshal_image (key imgString : String) :
    jsonMarshal (Value.obj [
        ("clientKey", Value.str key),
        ("task", Value.obj [
          ("type", Value.str "ImageToTextTask"),
          ("body", Value.str imgString)])])
      = Except.ok (Value.obj [
        ("clientKey", Value.str key),
        ("task", Value.obj [
          ("type", Value.str "ImageToTextTask"),
          ("body", Value.str imgString)])]) := by
  rfl

theorem special_of_isFinite {t : Float64} (h : t.isFinite = true) : t.special = none := by
  simpa [Float64.isFinite] using h

theorem jsonMarshal_result (key : String) (t : Float64) (h : t.isFinite = true) :
    jsonMarshal (Value.obj [("clientKey", Value.str key), ("taskId", Value.num t)])
      = Except.ok (Value.obj [("clientKey", Value.str key), ("taskId", Value.num t)]) := by
  simp [jsonMarshal, Value.unsupported, unsupportedAmong, special_of_isFinite h]

theorem jsonMarshal_result_unsupported (key : String) (t : Float64) (str : String)
    (h : t.special = some str) :
    jsonMarshal (Value.obj [("clientKey", Value.str key), ("taskId", Value.num t)])
      = Except.error (GoError.unsupportedValue t str) := by
  simp [jsonMarshal, Value.unsupported, unsupportedAmong, h]

theorem createTaskRecaptcha_world (c : Client) (websiteURL recaptchaKey : String) (w : World) :
    (c.createTaskRecaptcha websiteURL recaptchaKey w).2
      = w.after 1 [postEvent (recaptchaRequest c websiteURL recaptchaKey)] := by
  unfold Client.createTaskRecaptcha
  simp only [jsonMarshal_recaptcha, httpPost]
  cases w.network 0 with
  | error e => rfl
  | ok r =>
    simp only []
    split
    · rfl
    · split <;> rfl

theorem createTaskImage_world (c : Client) (imgString : String) (w : World) :
    (c.createTaskImage imgString w).2 = w.after 1 [postEvent (imageRequest c imgString)] := by
  unfold Client.createTaskImage
  simp only [jsonMarshal_image, httpPost]
  cases w.network 0 with
  | error e => rfl
  | ok r =>
    simp only []
    split
    · rfl
    · split <;> rfl

theorem createTaskRecaptcha_eq (c : Client) (websiteURL recaptchaKey : String) (w : World)
    (r : Float64 × Option GoError)
    (h : (c.createTaskRecaptcha websiteURL recaptchaKey w).1 = r) :
    c.createTaskRecaptcha websiteURL recaptchaKey w
      = (r, w.after 1 [postEvent (recaptchaRequest c websiteURL recaptchaKey)]) :=
  Prod.ext h (createTaskRecaptcha_world c websiteURL recaptchaKey w)

theorem createTaskImage_eq (c : Client) (imgString : String) (w : World)
    (r : Float64 × Option GoError) (h : (c.createTaskImage imgString w).1 = r) :
    c.createTaskImage imgString w = (r, w.after 1 [postEvent (imageRequest c imgString)]) :=
  Prod.ext h (createTaskImage_world c imgString w)

/-- The two createTask methods read the same answer in the same way: in one
world they return the same results. -/
theorem createTask_results_agree (c : Client) (websiteURL recaptchaKey imgString : String)
    (w : World) :
    (c.createTaskImage imgString w).1 = (c.createTaskRecaptcha websiteURL recaptchaKey w).1 := by
  unfold Client.createTaskImage Client.createTaskRecaptcha
  simp only [jsonMarshal_image, jsonMarshal_recaptcha, httpPost]
  cases w.network 0 with
  | error e => rfl
  | ok r =>
    simp only []
    split
    · simp [*]
    · split <;> simp [*]

theorem getTaskResult_ok (c : Client) (taskID : Float64) (w : World) (r : Response)
    (hfin : taskID.isFinite = true) (h : w.network 0 = .ok r) :
    c.getTaskResult taskID w
      = ((r.decode, none), w.after 1 [postEvent (resultRequest c taskID)]) := by
  unfold Client.getTaskResult
  simp only [jsonMarshal_result c.APIKey taskID hfin, httpPost, h]
  rfl

theorem getTaskResult_error (c : Client) (taskID : Float64) (w : World) (e : GoError)
    (hfin : taskID.isFinite = true) (h : w.network 0 = .error e) :
    c.getTaskResult taskID w
      = (([], some e), w.after 1 [postEvent (resultRequest c taskID)]) := by
  unfold Client.getTaskResult
  simp only [jsonMarshal_result c.APIKey taskID hfin, httpPost, h]
  rfl

/-- For a task id that is not finite `getTaskResult` returns the error of
`json.Marshal` and does nothing else. -/
theorem getTaskResult_unsupported (c : Client) (taskID : Float64) (w : World) (str : String)
    (h : taskID.special = some str) :
    c.getTaskResult taskID w = (([], some (GoError.unsupportedValue taskID str)), w) := by
  unfold Client.getTaskResult
  simp only [jsonMarshal_result_unsupported c.APIKey taskID str h]

theorem timeSleep_eq (d : Int) (w : World) :
    timeSleep d w = w.after 0 [Event.sleep d] := by
  simp [timeSleep, World.emit, World.after]

theorem SendRecaptcha_eq (c : Client) (websiteURL recaptchaKey : String) (fuel : Nat)
    (w : World) :
    c.SendRecaptcha websiteURL recaptchaKey fuel w
      = solveAfter c "gRecaptchaResponse" fuel
          (c.createTaskRecaptcha websiteURL recaptchaKey w) := by
  rfl

theorem SendImage_eq (c : Client) (imgString : String) (fuel : Nat) (w : World) :
    c.SendImage imgString fuel w
      = solveAfter c "text" fuel (c.createTaskImage imgString w) := by
  rfl

/-- The loop on `n` processing responses `q 0 .. q (n-1)` followed by a terminal
response `q n`: it ends at the `break` with `q n`, after `n` further posts. -/
theorem pollLoop_run (c : Client) (taskID : Float64) (hfin : taskID.isFinite = true) :
    ∀ (n fuel : Nat) (q : Nat → GoMap) (w : World), n < fuel →
      (∀ k, k < n → isProcessing (q k) = true) → isProcessing (q n) = false →
      (∀ k, k < n → w.network k = .ok ⟨q (k + 1)⟩) →
      c.pollLoop taskID fuel (q 0) w
        = some (Sum.inr (q n), w.after n (pollTrace c taskID n)) := by
  intro n
  induction n with
  | zero =>
    intro fuel q w hf _ ht _
    obtain ⟨f, rfl⟩ : ∃ f, fuel = f + 1 := ⟨fuel - 1, by omega⟩
    have ht2 : ((q 0).index "status").eqString "processing" = false := ht
    simp [Client.pollLoop, ht2, log_eq, pollTrace, retryTrace, readyMessage]
  | succ n ih =>
    intro fuel q w hf hp ht hn
    obtain ⟨f, rfl⟩ : ∃ f, fuel = f + 1 := ⟨fuel - 1, by omega⟩
    have h0 : ((q 0).index "status").eqString "processing" = true := hp 0 (by omega)
    have hnet : ((c.log notReadyMessage w).after 0 [Event.sleep c.SendInterval]).network 0
        = .ok ⟨q 1⟩ := by
      rw [log_eq, after_after]
      exact hn 0 (by omega)
    have hget := getTaskResult_ok c taskID _ _ hfin hnet
    have hstep : c.pollLoop taskID (f + 1) (q 0) w
        = c.pollLoop taskID f (q 1) (w.after 1 (stepTrace c taskID)) := by
      simp only [Client.pollLoop, h0, if_true, timeSleep_eq]
      have hget2 := hget
      simp only [notReadyMessage] at hget2
      rw [hget2]
      simp only [Response.decode, log_eq, after_after, stepTrace, notReadyMessage,
        List.append_assoc, List.singleton_append, Nat.zero_add]
    rw [hstep]
    have := ih f (fun k => q (k + 1)) (w.after 1 (stepTrace c taskID)) (by omega)
      (fun k hk => hp (k + 1) (by omega)) ht
      (fun k hk => by
        have := hn (k + 1) (by omega)
        simpa [World.after] using this)
    simp only [Nat.zero_add] at this
    rw [this, after_after]
    simp [pollTrace, retryTrace, Nat.add_comm]

/-- The loop on `n` processing responses answered by responses and one more
processing response answered by a transport error: it ends at the
`return "", err` inside the loop. -/
theorem pollLoop_fail (c : Client) (taskID : Float64) (e : GoError)
    (hfin : taskID.isFinite = true) :
    ∀ (n fuel : Nat) (q : Nat → GoMap) (w : World), n < fuel →
      (∀ k, k ≤ n → isProcessing (q k) = true) →
      (∀ k, k < n → w.network k = .ok ⟨q (k + 1)⟩) →
      w.network n = .error e →
      c.pollLoop taskID fuel (q 0) w
        = some (Sum.inl e, w.after (n + 1) (retryTrace c taskID (n + 1))) := by
  intro n
  induction n with
  | zero =>
    intro fuel q w hf hp _ he
    obtain ⟨f, rfl⟩ : ∃ f, fuel = f + 1 := ⟨fuel - 1, by omega⟩
    have h0 : ((q 0).index "status").eqString "processing" = true := hp 0 (by omega)
    have hnet : ((c.log notReadyMessage w).after 0 [Event.sleep c.SendInterval]).network 0
        = .error e := by
      rw [log_eq, after_after]
      exact he
    have hget := getTaskResult_error c taskID _ _ hfin hnet
    simp only [notReadyMessage] at hget
    simp only [Client.pollLoop, h0, if_true, timeSleep_eq]
    rw [hget]
    simp only [log_eq, after_after, stepTrace, retryTrace, notReadyMessage,
      List.append_assoc, List.singleton_append, Nat.zero_add, List.append_nil]
  | succ n ih =>
    intro fuel q w hf hp hn he
    obtain ⟨f, rfl⟩ : ∃ f, fuel = f + 1 := ⟨fuel - 1, by omega⟩
    have h0 : ((q 0).index "status").eqString "processing" = true := hp 0 (by omega)
    have hnet : ((c.log notReadyMessage w).after 0 [Event.sleep c.SendInterval]).network 0
        = .ok ⟨q 1⟩ := by
      rw [log_eq, after_after]
      exact hn 0 (by omega)
    have hget := getTaskResult_ok c taskID _ _ hfin hnet
    have hstep : c.pollLoop taskID (f + 1) (q 0) w
        = c.pollLoop taskID f (q 1) (w.after 1 (stepTrace c taskID)) := by
      simp only [Client.pollLoop, h0, if_true, timeSleep_eq]
      have hget2 := hget
      simp only [notReadyMessage] at hget2
      rw [hget2]
      simp only [Response.decode, log_eq, after_after, stepTrace, notReadyMessage,
        List.append_assoc, List.singleton_append, Nat.zero_add]
    rw [hstep]
    have := ih f (fun k => q (k + 1)) (w.after 1 (stepTrace c taskID)) (by omega)
      (fun k hk => hp (k + 1) (by omega))
      (fun k hk => by
        have := hn (k + 1) (by omega)
        simpa [World.after] using this)
      (by simpa [World.after] using he)
    simp only [Nat.zero_add] at this
    rw [this, after_after]
    simp [retryTrace, Nat.add_comm]

/-- A solve method whose createTask returned task id `t`, on `n` processing
responses followed by the terminal response `term`: the loop ends and the
solution is extracted from `term`. -/
theorem solveAfter_run (c : Client) (field : String) (fuel n : Nat) (t : Float64)
    (w1 : World) (term : GoMap) (hfin : t.isFinite = true) (hf : n < fuel)
    (hp : ∀ k, k < n → answersProcessing (w1.network k) = true)
    (ht : w1.network n = .ok ⟨term⟩) (hterm : isProcessing term = false) :
    solveAfter c field fuel ((t, none), w1)
      = some (solveResult (extractSolution term field),
          w1.after (n + 1) (postEvent (resultRequest c t) :: pollTrace c t n)) := by
  have hq : ∀ k, k ≤ n → w1.network k = .ok ⟨decodedBody (w1.network k)⟩ := by
    intro k hk
    rcases Nat.lt_or_ge k n with h | h
    · exact answersProcessing_ok (hp k h)
    · have hkn : k = n := by omega
      subst hkn
      rw [ht]
      rfl
  have hqn : decodedBody (w1.network n) = term := by
    rw [ht]
    rfl
  have hget := getTaskResult_ok c t w1 _ hfin (hq 0 (by omega))
  have hloop := pollLoop_run c t hfin n fuel (fun k => decodedBody (w1.network k))
    (w1.after 1 [postEvent (resultRequest c t)]) hf
    (fun k hk => by
      have h1 := hp k hk
      have h2 := hq k (by omega)
      rw [h2] at h1
      exact h1)
    (by
      show isProcessing (decodedBody (w1.network n)) = false
      rw [hqn]
      exact hterm)
    (fun k hk => by
      have := hq (k + 1) (by omega)
      simpa [World.after] using this)
  simp only [] at hloop
  simp only [solveAfter, hget, Response.decode, hloop, hqn, after_after]
  cases extractSolution term field <;> simp [solveResult, Nat.add_comm]

/-- A solve method whose createTask returned task id `t`, on `j` processing
responses followed by a transport error: it returns the empty string and that
error, after `j + 1` posts to getTaskResult. -/
theorem solveAfter_fail (c : Client) (field : String) (fuel j : Nat) (t : Float64)
    (w1 : World) (e : GoError) (hfin : t.isFinite = true) (hf : j ≤ fuel)
    (hp : ∀ k, k < j → answersProcessing (w1.network k) = true)
    (he : w1.network j = .error e) :
    solveAfter c field fuel ((t, none), w1)
      = some (Outcome.returned ("", some e),
          w1.after (j + 1) (postEvent (resultRequest c t) :: retryTrace c t j)) := by
  cases j with
  | zero =>
    have hget := getTaskResult_error c t w1 e hfin he
    simp [solveAfter, hget, retryTrace]
  | succ n =>
    have hq : ∀ k, k ≤ n → w1.network k = .ok ⟨decodedBody (w1.network k)⟩ :=
      fun k hk => answersProcessing_ok (hp k (by omega))
    have hget := getTaskResult_ok c t w1 _ hfin (hq 0 (by omega))
    have hloop := pollLoop_fail c t e hfin n fuel (fun k => decodedBody (w1.network k))
      (w1.after 1 [postEvent (resultRequest c t)]) (by omega)
      (fun k hk => by
        have h1 := hp k (by omega)
        have h2 := hq k hk
        rw [h2] at h1
        exact h1)
      (fun k hk => by
        have := hq (k + 1) (by omega)
        simpa [World.after] using this)
      (by simpa [World.after] using he)
    simp only [] at hloop
    simp only [solveAfter, hget, Response.decode, hloop, after_after]
    simp [Nat.add_comm]

/-- A solve method whose createTask returned a task id that is not finite
returns the empty string and the error of `json.Marshal`, without a post to
`getTaskResult`. -/
theorem solveAfter_unsupported (c : Client) (field : String) (fuel : Nat) (t : Float64)
    (w1 : World) (str : String) (h : t.special = some str) :
    solveAfter c field fuel ((t, none), w1)
      = some (Outcome.returned ("", some (GoError.unsupportedValue t str)), w1) := by
  simp [solveAfter, getTaskResult_unsupported c t w1 str h]

/-- A solve method whose createTask failed returns the empty string and the
error of createTask, in the world createTask left. -/
theorem solveAfter_createFailed (c : Client) (field : String) (fuel : Nat) (x : Float64)
    (err : GoError) (w1 : World) :
    solveAfter c field fuel ((x, some err), w1)
      = some (Outcome.returned ("", some err), w1) := by
  rfl

theorem posts_append (s t : List Event) : posts (s ++ t) = posts s ++ posts t := by
  induction s with
  | nil => rfl
  | cons e s ih => cases e <;> simp [posts, ih]

theorem logCalls_append (s t : List Event) :
    logCalls (s ++ t) = logCalls s ++ logCalls t := by
  induction s with
  | nil => rfl
  | cons e s ih => cases e <;> simp [logCalls, ih]

theorem posts_logEvents (c : Client) (params : List Value) :
    posts (logEvents c params) = [] := by
  unfold logEvents
  cases c.LogFunction <;> rfl

theorem posts_retryTrace (c : Client) (t : Float64) (n : Nat) :
    posts (retryTrace c t n) = List.replicate n (resultRequest c t) := by
  induction n with
  | zero => rfl
  | succ n ih =>
    simp [retryTrace, stepTrace, posts_append, posts_logEvents, posts, postEvent, ih,
      List.replicate_succ]

theorem logCalls_retryTrace (c : Client) (t : Float64) (n : Nat)
    (hlog : c.LogFunction = some LogFunction.callback) :
    logCalls (retryTrace c t n) = List.replicate n notReadyMessage := by
  induction n with
  | zero => rfl
  | succ n ih =>
    simp [retryTrace, stepTrace, logCalls_append, logEvents, hlog, logCalls, postEvent, ih,
      List.replicate_succ]

/-- The run of `solveAfter_run`, read from the world before createTask posted
`req`. -/
theorem solveAfter_run_from (c : Client) (field : String) (fuel n : Nat) (t : Float64)
    (w : World) (req : String × Value) (term : GoMap) (hfin : t.isFinite = true)
    (hf : n < fuel)
    (hp : ∀ k, k < n → answersProcessing (w.network (k + 1)) = true)
    (ht : w.network (n + 1) = .ok ⟨term⟩) (hterm : isProcessing term = false) :
    solveAfter c field fuel ((t, none), w.after 1 [postEvent req])
      = some (solveResult (extractSolution term field),
          w.after (n + 2)
            (postEvent req :: postEvent (resultRequest c t) :: pollTrace c t n)) := by
  rw [solveAfter_run c field fuel n t (w.after 1 [postEvent req]) term hfin hf hp ht hterm,
    after_after, show 1 + (n + 1) = n + 2 by omega]
  rfl

/-- The run of `solveAfter_fail`, read from the world before createTask posted
`req`. -/
theorem solveAfter_fail_from (c : Client) (field : String) (fuel j : Nat) (t : Float64)
    (w : World) (req : String × Value) (e : GoError) (hfin : t.isFinite = true)
    (hf : j ≤ fuel)
    (hp : ∀ k, k < j → answersProcessing (w.network (k + 1)) = true)
    (he : w.network (j + 1) = .error e) :
    solveAfter c field fuel ((t, none), w.after 1 [postEvent req])
      = some (Outcome.returned ("", some e),
          w.after (j + 2)
            (postEvent req :: postEvent (resultRequest c t) :: retryTrace c t j)) := by
  rw [solveAfter_fail c field fuel j t (w.after 1 [postEvent req]) e hfin hf hp he,
    after_after,
    show 1 + (j + 1) = j + 2 by omega]
  rfl

theorem logCalls_run (c : Client) (t : Float64) (req : String × Value) (n : Nat)
    (hlog : c.LogFunction = some LogFunction.callback) :
    logCalls (postEvent req :: postEvent (resultRequest c t) :: pollTrace c t n)
      = List.replicate n notReadyMessage ++ [readyMessage] := by
  simp [logCalls, postEvent, pollTrace, logCalls_append, logCalls_retryTrace, hlog,
    logEvents]

/-! ## The createTask methods -/

/-- C1: for both task kinds, a decoded createTask response whose `errorCode`
field is a string makes the method fail with the error `errors.New(errorCode)`,
whose message is that string, whatever else the response holds (a numeric
`taskId` included); the float returned is the zero value, not a task id. -/
theorem createTask_errorCode_precedence (c : Client)
    (websiteURL recaptchaKey imgString : String) (w : World) (m : GoMap)
    (errorCode : String) (hresp : w.network 0 = .ok ⟨m⟩)
    (herr : m.index "errorCode" = Value.str errorCode) :
    (c.createTaskRecaptcha websiteURL recaptchaKey w).1
        = (Float64.zero, some (GoError.errorsNew errorCode))
      ∧ (c.createTaskImage imgString w).1
        = (Float64.zero, some (GoError.errorsNew errorCode))
      ∧ (GoError.errorsNew errorCode).Error = errorCode := by
  refine ⟨?_, ?_, rfl⟩
  · simp [Client.createTaskRecaptcha, jsonMarshal_recaptcha, httpPost, hresp, Response.decode,
      herr, Value.assertString]
  · simp [Client.createTaskImage, jsonMarshal_image, httpPost, hresp, Response.decode, herr,
      Value.assertString]

/-- C1, on a response that holds both an error code and a numeric task id. -/
theorem createTask_errorCode_precedence_witness :
    (sampleClient.createTaskRecaptcha "https://example.org" "sitekey"
        (sampleWorld (.ok ⟨[("taskId", Value.num ⟨7⟩),
          ("errorCode", Value.str "ERROR_KEY_DOES_NOT_EXIST")]⟩) 0 stillProcessing)).1
        = (Float64.zero, some (GoError.errorsNew "ERROR_KEY_DOES_NOT_EXIST"))
      ∧ (sampleClient.createTaskImage "aGVsbG8="
        (sampleWorld (.ok ⟨[("taskId", Value.num ⟨7⟩),
          ("errorCode", Value.str "ERROR_KEY_DOES_NOT_EXIST")]⟩) 0 stillProcessing)).1
        = (Float64.zero, some (GoError.errorsNew "ERROR_KEY_DOES_NOT_EXIST"))
      ∧ (GoError.errorsNew "ERROR_KEY_DOES_NOT_EXIST").Error = "ERROR_KEY_DOES_NOT_EXIST" :=
  createTask_errorCode_precedence sampleClient "https://example.org" "sitekey" "aGVsbG8="
    (sampleWorld (.ok ⟨[("taskId", Value.num ⟨7⟩),
      ("errorCode", Value.str "ERROR_KEY_DOES_NOT_EXIST")]⟩) 0 stillProcessing)
    [("taskId", Value.num ⟨7⟩), ("errorCode", Value.str "ERROR_KEY_DOES_NOT_EXIST")]
    "ERROR_KEY_DOES_NOT_EXIST" rfl rfl

/-- C2: for both task kinds, a decoded createTask response with neither an
`errorCode` key nor a `taskId` key (the empty map included) makes the method
fail with the error `errors.New("task id is empty")`. -/
theorem createTask_without_fields (c : Client)
    (websiteURL recaptchaKey imgString : String) (w : World) (m : GoMap)
    (hresp : w.network 0 = .ok ⟨m⟩)
    (herr : List.lookup "errorCode" m = none) (hid : List.lookup "taskId" m = none) :
    (c.createTaskRecaptcha websiteURL recaptchaKey w).1
        = (Float64.zero, some (GoError.errorsNew "task id is empty"))
      ∧ (c.createTaskImage imgString w).1
        = (Float64.zero, some (GoError.errorsNew "task id is empty"))
      ∧ (GoError.errorsNew "task id is empty").Error = "task id is empty" := by
  refine ⟨?_, ?_, rfl⟩
  · simp [Client.createTaskRecaptcha, jsonMarshal_recaptcha, httpPost, hresp, Response.decode,
      GoMap.index, herr, hid, Value.assertString, Value.assertFloat64]
  · simp [Client.createTaskImage, jsonMarshal_image, httpPost, hresp, Response.decode,
      GoMap.index, herr, hid, Value.assertString, Value.assertFloat64]

/-- C2, on the empty map. -/
theorem createTask_without_fields_witness :
    (sampleClient.createTaskRecaptcha "https://example.org" "sitekey"
        (sampleWorld (.ok ⟨[]⟩) 0 stillProcessing)).1
        = (Float64.zero, some (GoError.errorsNew "task id is empty"))
      ∧ (sampleClient.createTaskImage "aGVsbG8=" (sampleWorld (.ok ⟨[]⟩) 0 stillProcessing)).1
        = (Float64.zero, some (GoError.errorsNew "task id is empty"))
      ∧ (GoError.errorsNew "task id is empty").Error = "task id is empty" :=
  createTask_without_fields sampleClient "https://example.org" "sitekey" "aGVsbG8="
    (sampleWorld (.ok ⟨[]⟩) 0 stillProcessing) [] rfl rfl rfl

/-! ## The solve methods on a run that reaches a terminal response -/

/-- C8, refuted: with a logging callback, a solve call whose first
`getTaskResult` answer is already "ready" returns the solution after calling
the callback exactly once, with "Result is ready."; and a solve call whose
createTask fails does not call it at all. -/
theorem log_called_once_counterexample :
    sampleClient.LogFunction = some LogFunction.callback
      ∧ (sampleClient.SendRecaptcha "https://example.org" "sitekey" 1
          (sampleWorld taskCreated 0 (.ok ⟨recaptchaReady "XYZ"⟩))).map
          (fun r => (r.1, (logCalls r.2.trace).length))
        = some (Outcome.returned ("XYZ", none), 1)
      ∧ (sampleClient.SendImage "aGVsbG8=" 1
          (sampleWorld taskCreated 0 (.ok ⟨imageReady "ABCD"⟩))).map
          (fun r => (r.1, (logCalls r.2.trace).length))
        = some (Outcome.returned ("ABCD", none), 1)
      ∧ (sampleClient.SendRecaptcha "https://example.org" "sitekey" 1
          (sampleWorld (.error (GoError.transport "dial tcp: i/o timeout")) 0
            stillProcessing)).map
          (fun r => (r.1, (logCalls r.2.trace).length))
        = some (Outcome.returned ("", some (GoError.transport "dial tcp: i/o timeout")), 0) := by
  refine ⟨rfl, ?_, ?_, ?_⟩ <;> decide

/-- C8, amended: for both solve methods with a logging callback, a call whose
createTask returns a finite task id and whose polling reaches a terminal
response after `n` processing responses calls the callback exactly `n + 1`
times: first `n` times with the still-processing message, one per processing
response, then once with the ready message. That is at least once, and at
least twice exactly when there was a processing response. -/
theorem log_call_count (c : Client) (websiteURL recaptchaKey imgString : String)
    (fuel n : Nat) (w : World) (t : Float64) (term : GoMap)
    (hlog : c.LogFunction = some LogFunction.callback) (hf : n < fuel)
    (hr : (c.createTaskRecaptcha websiteURL recaptchaKey w).1 = (t, none))
    (hi : (c.createTaskImage imgString w).1 = (t, none))
    (hfin : t.isFinite = true)
    (hp : ∀ k, k < n → answersProcessing (w.network (k + 1)) = true)
    (ht : w.network (n + 1) = .ok ⟨term⟩) (hterm : isProcessing term = false) :
    (∃ out tr, c.SendRecaptcha websiteURL recaptchaKey fuel w = some (out, w.after (n + 2) tr)
        ∧ logCalls tr = List.replicate n notReadyMessage ++ [readyMessage]
        ∧ (logCalls tr).length = n + 1 ∧ 1 ≤ (logCalls tr).length
        ∧ (2 ≤ (logCalls tr).length ↔ 1 ≤ n))
      ∧ (∃ out tr, c.SendImage imgString fuel w = some (out, w.after (n + 2) tr)
        ∧ logCalls tr = List.replicate n notReadyMessage ++ [readyMessage]
        ∧ (logCalls tr).length = n + 1 ∧ 1 ≤ (logCalls tr).length
        ∧ (2 ≤ (logCalls tr).length ↔ 1 ≤ n)) := by
  have hlen : ∀ req : String × Value,
      (logCalls (postEvent req :: postEvent (resultRequest c t) :: pollTrace c t n)).length
        = n + 1 := by
    intro req
    rw [logCalls_run c t req n hlog]
    simp
  constructor
  · refine ⟨solveResult (extractSolution term "gRecaptchaResponse"),
      postEvent (recaptchaRequest c websiteURL recaptchaKey)
        :: postEvent (resultRequest c t) :: pollTrace c t n,
      ?_, logCalls_run c t _ n hlog, hlen _, by rw [hlen]; omega, by rw [hlen]; omega⟩
    rw [SendRecaptcha_eq, createTaskRecaptcha_eq c websiteURL recaptchaKey w _ hr]
    exact solveAfter_run_from c _ fuel n t w _ term hfin hf hp ht hterm
  · refine ⟨solveResult (extractSolution term "text"),
      postEvent (imageRequest c imgString)
        :: postEvent (resultRequest c t) :: pollTrace c t n,
      ?_, logCalls_run c t _ n hlog, hlen _, by rw [hlen]; omega, by rw [hlen]; omega⟩
    rw [SendImage_eq, createTaskImage_eq c imgString w _ hi]
    exact solveAfter_run_from c _ fuel n t w _ term hfin hf hp ht hterm

/-- C8 amended, on two processing responses and then a terminal response: three
calls of the callback. -/
theorem log_call_count_witness :
    (∃ out tr, sampleClient.SendRecaptcha "https://example.org" "sitekey" 3
          (sampleWorld taskCreated 2 (.ok ⟨imageReady "ABCD"⟩))
          = some (out, (sampleWorld taskCreated 2 (.ok ⟨imageReady "ABCD"⟩)).after (2 + 2) tr)
        ∧ logCalls tr = List.replicate 2 notReadyMessage ++ [readyMessage]
        ∧ (logCalls tr).length = 2 + 1 ∧ 1 ≤ (logCalls tr).length
        ∧ (2 ≤ (logCalls tr).length ↔ 1 ≤ 2))
      ∧ (∃ out tr, sampleClient.SendImage "aGVsbG8=" 3
          (sampleWorld taskCreated 2 (.ok ⟨imageReady "ABCD"⟩))
          = some (out, (sampleWorld taskCreated 2 (.ok ⟨imageReady "ABCD"⟩)).after (2 + 2) tr)
        ∧ logCalls tr = List.replicate 2 notReadyMessage ++ [readyMessage]
        ∧ (logCalls tr).length = 2 + 1 ∧ 1 ≤ (logCalls tr).length
        ∧ (2 ≤ (logCalls tr).length ↔ 1 ≤ 2)) :=
  log_call_count sampleClient "https://example.org" "sitekey" "aGVsbG8=" 3 2
    (sampleWorld taskCreated 2 (.ok ⟨imageReady "ABCD"⟩)) sampleTaskID (imageReady "ABCD")
    rfl (by decide) (by decide) (by decide) (by decide) (by decide) rfl (by decide)

/-! ## Failures of createTask and of getTaskResult -/

/-- C9: for both solve methods, every failure is handed to the caller at once.
(1) When the post of createTask fails with the transport error `e`, the call
returns `("", e)` and its only effect is that one post. (2) Whatever error
createTask returns, the call returns the empty string with that error and its
only effect is the post of createTask. (3) When createTask returns a finite
task id `t`, the first `k - 1` answers to `getTaskResult` are responses with
status "processing" and the `k`-th post to `getTaskResult` fails with the
transport error `e`, the call returns `("", e)` (not a panic of the
extraction) after exactly `k + 1` posts, the createTask request and `k`
getTaskResult requests, given fuel for the `k - 1` iterations. (4) When
createTask returns a task id `t` that is not finite, the first call of
`getTaskResult` fails at `json.Marshal`; the solve call returns the empty
string with that error and its only effect is the post of createTask. -/
theorem transport_failure_propagates (c : Client)
    (websiteURL recaptchaKey imgString : String) (fuel : Nat) (w : World) :
    (∀ e, w.network 0 = .error e →
        c.SendRecaptcha websiteURL recaptchaKey fuel w
            = some (Outcome.returned ("", some e),
                w.after 1 [postEvent (recaptchaRequest c websiteURL recaptchaKey)])
          ∧ c.SendImage imgString fuel w
            = some (Outcome.returned ("", some e),
                w.after 1 [postEvent (imageRequest c imgString)]))
      ∧ (∀ x err, (c.createTaskRecaptcha websiteURL recaptchaKey w).1 = (x, some err) →
        c.SendRecaptcha websiteURL recaptchaKey fuel w
          = some (Outcome.returned ("", some err),
              w.after 1 [postEvent (recaptchaRequest c websiteURL recaptchaKey)]))
      ∧ (∀ x err, (c.createTaskImage imgString w).1 = (x, some err) →
        c.SendImage imgString fuel w
          = some (Outcome.returned ("", some err),
              w.after 1 [postEvent (imageRequest c imgString)]))
      ∧ (∀ (k : Nat) (t : Float64) (e : GoError), 1 ≤ k → k ≤ fuel + 1 →
        (c.createTaskRecaptcha websiteURL recaptchaKey w).1 = (t, none) →
        (c.createTaskImage imgString w).1 = (t, none) →
        t.isFinite = true →
        (∀ i, 1 ≤ i → i < k → answersProcessing (w.network i) = true) →
        w.network k = .error e →
        (∃ tr, c.SendRecaptcha websiteURL recaptchaKey fuel w
              = some (Outcome.returned ("", some e), w.after (k + 1) tr)
            ∧ posts tr = recaptchaRequest c websiteURL recaptchaKey
                :: List.replicate k (resultRequest c t))
          ∧ (∃ tr, c.SendImage imgString fuel w
              = some (Outcome.returned ("", some e), w.after (k + 1) tr)
            ∧ posts tr = imageRequest c imgString
                :: List.replicate k (resultRequest c t)))
      ∧ (∀ (t : Float64) (str : String),
        (c.createTaskRecaptcha websiteURL recaptchaKey w).1 = (t, none) →
        (c.createTaskImage imgString w).1 = (t, none) →
        t.special = some str →
        (c.getTaskResult t (w.after 1 [postEvent (recaptchaRequest c websiteURL recaptchaKey)])).1
            = ([], some (GoError.unsupportedValue t str))
          ∧ c.SendRecaptcha websiteURL recaptchaKey fuel w
            = some (Outcome.returned ("", some (GoError.unsupportedValue t str)),
                w.after 1 [postEvent (recaptchaRequest c websiteURL recaptchaKey)])
          ∧ c.SendImage imgString fuel w
            = some (Outcome.returned ("", some (GoError.unsupportedValue t str)),
                w.after 1 [postEvent (imageRequest c imgString)])) := by
  have hA : ∀ x err, (c.createTaskRecaptcha websiteURL recaptchaKey w).1 = (x, some err) →
      c.SendRecaptcha websiteURL recaptchaKey fuel w
        = some (Outcome.returned ("", some err),
            w.after 1 [postEvent (recaptchaRequest c websiteURL recaptchaKey)]) := by
    intro x err h
    rw [SendRecaptcha_eq, createTaskRecaptcha_eq c websiteURL recaptchaKey w _ h]
    rfl
  have hB : ∀ x err, (c.createTaskImage imgString w).1 = (x, some err) →
      c.SendImage imgString fuel w
        = some (Outcome.returned ("", some err),
            w.after 1 [postEvent (imageRequest c imgString)]) := by
    intro x err h
    rw [SendImage_eq, createTaskImage_eq c imgString w _ h]
    rfl
  refine ⟨?_, hA, hB, ?_, ?_⟩
  · intro e he
    constructor
    · apply hA Float64.zero e
      simp [Client.createTaskRecaptcha, jsonMarshal_recaptcha, httpPost, he]
    · apply hB Float64.zero e
      simp [Client.createTaskImage, jsonMarshal_image, httpPost, he]
  · intro k t e hk hfuel hr hi hfin hp he
    obtain ⟨j, rfl⟩ : ∃ j, k = j + 1 := ⟨k - 1, by omega⟩
    have hposts : ∀ req : String × Value,
        posts (postEvent req :: postEvent (resultRequest c t) :: retryTrace c t j)
          = req :: List.replicate (j + 1) (resultRequest c t) := by
      intro req
      simp [posts, postEvent, posts_retryTrace, List.replicate_succ]
    have hp2 : ∀ i, i < j → answersProcessing (w.network (i + 1)) = true :=
      fun i hi2 => hp (i + 1) (by omega) (by omega)
    constructor
    · refine ⟨postEvent (recaptchaRequest c websiteURL recaptchaKey)
        :: postEvent (resultRequest c t) :: retryTrace c t j, ?_, hposts _⟩
      rw [SendRecaptcha_eq, createTaskRecaptcha_eq c websiteURL recaptchaKey w _ hr]
      exact solveAfter_fail_from c _ fuel j t w _ e hfin (by omega) hp2 he
    · refine ⟨postEvent (imageRequest c imgString)
        :: postEvent (resultRequest c t) :: retryTrace c t j, ?_, hposts _⟩
      rw [SendImage_eq, createTaskImage_eq c imgString w _ hi]
      exact solveAfter_fail_from c _ fuel j t w _ e hfin (by omega) hp2 he
  · intro t str hr hi hsp
    refine ⟨?_, ?_, ?_⟩
    · rw [getTaskResult_unsupported c t _ str hsp]
    · rw [SendRecaptcha_eq, createTaskRecaptcha_eq c websiteURL recaptchaKey w _ hr]
      exact solveAfter_unsupported c _ fuel t _ str hsp
    · rw [SendImage_eq, createTaskImage_eq c imgString w _ hi]
      exact solveAfter_unsupported c _ fuel t _ str hsp

/-- C9, on a createTask post that times out, on a createTask response with an
error code, on a third `getTaskResult` post that is reset after two processing
responses, and on the task id +Inf. -/
theorem transport_failure_propagates_witness :
    (sampleClient.SendRecaptcha "https://example.org" "sitekey" 2
            (sampleWorld (.error (GoError.transport "dial tcp: i/o timeout")) 0 stillProcessing)
          = some (Outcome.returned ("", some (GoError.transport "dial tcp: i/o timeout")),
              (sampleWorld (.error (GoError.transport "dial tcp: i/o timeout")) 0
                stillProcessing).after 1
                [postEvent (recaptchaRequest sampleClient "https://example.org" "sitekey")])
        ∧ sampleClient.SendImage "aGVsbG8=" 2
            (sampleWorld (.error (GoError.transport "dial tcp: i/o timeout")) 0 stillProcessing)
          = some (Outcome.returned ("", some (GoError.transport "dial tcp: i/o timeout")),
              (sampleWorld (.error (GoError.transport "dial tcp: i/o timeout")) 0
                stillProcessing).after 1 [postEvent (imageRequest sampleClient "aGVsbG8=")]))
      ∧ sampleClient.SendRecaptcha "https://example.org" "sitekey" 2
            (sampleWorld (.ok ⟨[("errorCode", Value.str "ERROR_ZERO_BALANCE")]⟩) 0
              stillProcessing)
          = some (Outcome.returned ("", some (GoError.errorsNew "ERROR_ZERO_BALANCE")),
              (sampleWorld (.ok ⟨[("errorCode", Value.str "ERROR_ZERO_BALANCE")]⟩) 0
                stillProcessing).after 1
                [postEvent (recaptchaRequest sampleClient "https://example.org" "sitekey")])
      ∧ sampleClient.SendImage "aGVsbG8=" 2
            (sampleWorld (.ok ⟨[("errorCode", Value.str "ERROR_ZERO_BALANCE")]⟩) 0
              stillProcessing)
          = some (Outcome.returned ("", some (GoError.errorsNew "ERROR_ZERO_BALANCE")),
              (sampleWorld (.ok ⟨[("errorCode", Value.str "ERROR_ZERO_BALANCE")]⟩) 0
                stillProcessing).after 1 [postEvent (imageRequest sampleClient "aGVsbG8=")])
      ∧ ((∃ tr, sampleClient.SendRecaptcha "https://example.org" "sitekey" 2
              (sampleWorld taskCreated 2 (.error (GoError.transport "connection reset")))
            = some (Outcome.returned ("", some (GoError.transport "connection reset")),
                (sampleWorld taskCreated 2
                  (.error (GoError.transport "connection reset"))).after (3 + 1) tr)
          ∧ posts tr = recaptchaRequest sampleClient "https://example.org" "sitekey"
              :: List.replicate 3 (resultRequest sampleClient sampleTaskID))
        ∧ (∃ tr, sampleClient.SendImage "aGVsbG8=" 2
              (sampleWorld taskCreated 2 (.error (GoError.transport "connection reset")))
            = some (Outcome.returned ("", some (GoError.transport "connection reset")),
                (sampleWorld taskCreated 2
                  (.error (GoError.transport "connection reset"))).after (3 + 1) tr)
          ∧ posts tr = imageRequest sampleClient "aGVsbG8="
              :: List.replicate 3 (resultRequest sampleClient sampleTaskID)))
      ∧ ((sampleClient.getTaskResult positiveInfinity
            ((sampleWorld taskCreatedInfinite 2 (.ok ⟨taskFailed⟩)).after 1
              [postEvent (recaptchaRequest sampleClient "https://example.org" "sitekey")])).1
          = ([], some (GoError.unsupportedValue positiveInfinity "+Inf"))
        ∧ sampleClient.SendRecaptcha "https://example.org" "sitekey" 2
            (sampleWorld taskCreatedInfinite 2 (.ok ⟨taskFailed⟩))
          = some (Outcome.returned
                ("", some (GoError.unsupportedValue positiveInfinity "+Inf")),
              (sampleWorld taskCreatedInfinite 2 (.ok ⟨taskFailed⟩)).after 1
                [postEvent (recaptchaRequest sampleClient "https://example.org" "sitekey")])
        ∧ sampleClient.SendImage "aGVsbG8=" 2
            (sampleWorld taskCreatedInfinite 2 (.ok ⟨taskFailed⟩))
          = some (Outcome.returned
                ("", some (GoError.unsupportedValue positiveInfinity "+Inf")),
              (sampleWorld taskCreatedInfinite 2 (.ok ⟨taskFailed⟩)).after 1
                [postEvent (imageRequest sampleClient "aGVsbG8=")])) :=
  ⟨(transport_failure_propagates sampleClient "https://example.org" "sitekey" "aGVsbG8=" 2
      (sampleWorld (.error (GoError.transport "dial tcp: i/o timeout")) 0 stillProcessing)).1
      (GoError.transport "dial tcp: i/o timeout") rfl,
    (transport_failure_propagates sampleClient "https://example.org" "sitekey" "aGVsbG8=" 2
      (sampleWorld (.ok ⟨[("errorCode", Value.str "ERROR_ZERO_BALANCE")]⟩) 0
        stillProcessing)).2.1 Float64.zero (GoError.errorsNew "ERROR_ZERO_BALANCE") rfl,
    (transport_failure_propagates sampleClient "https://example.org" "sitekey" "aGVsbG8=" 2
      (sampleWorld (.ok ⟨[("errorCode", Value.str "ERROR_ZERO_BALANCE")]⟩) 0
        stillProcessing)).2.2.1 Float64.zero (GoError.errorsNew "ERROR_ZERO_BALANCE") rfl,
    (transport_failure_propagates sampleClient "https://example.org" "sitekey" "aGVsbG8=" 2
      (sampleWorld taskCreated 2 (.error (GoError.transport "connection reset")))).2.2.2.1
      3 sampleTaskID (GoError.transport "connection reset") (by decide) (by decide)
      (by decide) (by decide) (by decide) (by decide) rfl,
    (transport_failure_propagates sampleClient "https://example.org" "sitekey" "aGVsbG8=" 2
      (sampleWorld taskCreatedInfinite 2 (.ok ⟨taskFailed⟩))).2.2.2.2
      positiveInfinity "+Inf" (by decide) (by decide) (by decide)⟩

/-! ## Request bodies -/

/-- C10: every request the client posts carries `clientKey` equal to `APIKey`.
`createTaskRecaptcha` posts to `/createTask` the map of `clientKey` and a `task`
of type "NoCaptchaTaskProxyless" with the URL and the site key as given;
`createTaskImage` posts to `/createTask` the map of `clientKey` and a `task` of
type "ImageToTextTask" with the base64 string as given; each makes this one
post and nothing else. `getTaskResult` builds the map of `clientKey` and the
given `taskId`: for a finite task id it posts that map to `/getTaskResult` and
does nothing else; for a task id that is not finite `json.Marshal` rejects the
map because of that very task id, and `getTaskResult` returns that error and
posts nothing. -/
theorem request_bodies (c : Client) (websiteURL recaptchaKey imgString : String)
    (taskID : Float64) (w : World) :
    (c.createTaskRecaptcha websiteURL recaptchaKey w).2.trace
        = w.trace ++ [Event.httpPost "https://api.anti-captcha.com/createTask"
            "application/json"
            (Value.obj [
              ("clientKey", Value.str c.APIKey),
              ("task", Value.obj [
                ("type", Value.str "NoCaptchaTaskProxyless"),
                ("websiteURL", Value.str websiteURL),
                ("websiteKey", Value.str recaptchaKey)])])]
      ∧ (c.createTaskImage imgString w).2.trace
        = w.trace ++ [Event.httpPost "https://api.anti-captcha.com/createTask"
            "application/json"
            (Value.obj [
              ("clientKey", Value.str c.APIKey),
              ("task", Value.obj [
                ("type", Value.str "ImageToTextTask"),
                ("body", Value.str imgString)])])]
      ∧ (match taskID.special with
        | none =>
          (c.getTaskResult taskID w).2.trace
            = w.trace ++ [Event.httpPost "https://api.anti-captcha.com/getTaskResult"
                "application/json"
                (Value.obj [
                  ("clientKey", Value.str c.APIKey),
                  ("taskId", Value.num taskID)])]
        | some str =>
          c.getTaskResult taskID w = (([], some (GoError.unsupportedValue taskID str)), w)) := by
  refine ⟨?_, ?_, ?_⟩
  · rw [createTaskRecaptcha_world]
    rfl
  · rw [createTaskImage_world]
    rfl
  · cases hsp : taskID.special with
    | none =>
      have hfin : taskID.isFinite = true := by simp [Float64.isFinite, hsp]
      cases h : w.network 0 with
      | error e =>
        rw [getTaskResult_error c taskID w e hfin h]
        rfl
      | ok r =>
        rw [getTaskResult_ok c taskID w r hfin h]
        rfl
    | some str => exact getTaskResult_unsupported c taskID w str hsp

end Anticaptcha
